import Mathlib

/-!
Verification of the SPOG inventory consumption/balance transaction pipeline.

This file gives a shallow embedding of the consumption transaction core of
the SPOG management application:

* `calculateItemStatus`   — src/lib/db/inventory.ts, lines 253-274
* `conversionFactor`      — the unit-conversion branch chain of
                            `recordConsumption`, src/lib/db/consumption.ts,
                            lines 37-285
* `convertForConsumption` — the conversion step with its fallback and the
                            `Unsupported unit conversion` warning,
                            src/lib/db/consumption.ts, lines 26-298
* `recordConsumption`     — the transaction coordinator,
                            src/lib/db/consumption.ts, lines 8-391
* `handleAdjustmentSubmit`— the balance adjustment path,
                            src/components/consumption-modal.tsx, lines 130-172

Numbers are modelled with exact rationals; JavaScript string truthiness is
modelled by non-emptiness; fallible datastore writes are modelled by Boolean
failure-injection flags in an `Env` record.
-/

namespace SPOG

/-- Stock status classification, src/lib/supabase.ts line 43. -/
inductive ItemStatus where
| normal
| low
| critical
deriving DecidableEq

/-- InventoryItem record, src/lib/supabase.ts lines 27-55 (the fields the
transaction core reads; timestamps and display-only join fields omitted). -/
structure InventoryItem where
  id : String
  item_code : String
  name : String
  current_balance : ℚ
  original_amount : ℚ
  unit : String
  consumption_unit : String
  min_threshold : ℚ
  critical_threshold : ℚ
deriving DecidableEq

/-- ConsumptionRecord ledger entry as inserted by `recordConsumption`,
src/lib/db/consumption.ts lines 344-350 (the generated id and created_at
columns are omitted; the timestamp is the insertion instant). -/
structure ConsumptionRecord where
  item_id : String
  user_id : String
  amount : ℚ
  reason : Option String
  timestamp : Nat
deriving DecidableEq

/-- Action type tag of an activity log entry, src/lib/supabase.ts line 70. -/
inductive ActionType where
| consumption
| adjustment
| addition
deriving DecidableEq

/-- The details payload written with a consumption activity log,
src/lib/db/consumption.ts lines 371-377. -/
structure ActivityDetails where
  amount : ℚ
  unit : String
  reason : Option String
  previous_balance : ℚ
  new_balance : ℚ
deriving DecidableEq

/-- ActivityLog entry, src/lib/supabase.ts lines 67-75 (generated columns
omitted). -/
structure ActivityLog where
  user_id : String
  action_type : ActionType
  item_id : String
  details : ActivityDetails
  timestamp : Nat
deriving DecidableEq

/-- The relevant datastore tables: inventory_items, consumption_records and
activity_logs. -/
structure Database where
  items : List InventoryItem
  consumption_records : List ConsumptionRecord
  activity_logs : List ActivityLog
deriving DecidableEq

/-- Status classification from thresholds, src/lib/db/inventory.ts
lines 253-274 (`calculateItemStatus`). -/
def calculateItemStatus (item : InventoryItem) : ItemStatus :=
  if item.current_balance ≤ item.critical_threshold then .critical
  else if item.current_balance ≤ item.min_threshold then .low
  else .normal

/-- The unit-conversion branch chain of `recordConsumption`,
src/lib/db/consumption.ts lines 37-285. Both unit names are assumed already
lowercased (the source lowercases at lines 34-35). A source branch
`convertedAmount = convertedAmount / k` is the factor `1 / k`, and
`convertedAmount = convertedAmount * k` is the factor `k`; `none` means the
chain falls through with no branch taken. -/
def conversionFactor (fromUnit toUnit : String) : Option ℚ :=
  -- VOLUME: metric
  if fromUnit = "ml" ∧ toUnit = "l" then some (1 / 1000)
  else if fromUnit = "l" ∧ toUnit = "ml" then some 1000
  else if fromUnit = "cl" ∧ toUnit = "l" then some (1 / 100)
  else if fromUnit = "l" ∧ toUnit = "cl" then some 100
  else if fromUnit = "ml" ∧ toUnit = "cl" then some (1 / 10)
  else if fromUnit = "cl" ∧ toUnit = "ml" then some 10
  -- VOLUME: imperial
  else if fromUnit = "fl_oz" ∧ toUnit = "gal" then some (1 / 128)
  else if fromUnit = "gal" ∧ toUnit = "fl_oz" then some 128
  else if fromUnit = "pt" ∧ toUnit = "gal" then some (1 / 8)
  else if fromUnit = "gal" ∧ toUnit = "pt" then some 8
  else if fromUnit = "qt" ∧ toUnit = "gal" then some (1 / 4)
  else if fromUnit = "gal" ∧ toUnit = "qt" then some 4
  else if fromUnit = "fl_oz" ∧ toUnit = "pt" then some (1 / 16)
  else if fromUnit = "pt" ∧ toUnit = "fl_oz" then some 16
  else if fromUnit = "fl_oz" ∧ toUnit = "qt" then some (1 / 32)
  else if fromUnit = "qt" ∧ toUnit = "fl_oz" then some 32
  else if fromUnit = "pt" ∧ toUnit = "qt" then some (1 / 2)
  else if fromUnit = "qt" ∧ toUnit = "pt" then some 2
  -- VOLUME: metric to imperial
  else if fromUnit = "ml" ∧ toUnit = "fl_oz" then some (1 / 29.574)
  else if fromUnit = "fl_oz" ∧ toUnit = "ml" then some 29.574
  else if fromUnit = "l" ∧ toUnit = "gal" then some (1 / 3.78541)
  else if fromUnit = "gal" ∧ toUnit = "l" then some 3.78541
  -- WEIGHT: metric
  else if fromUnit = "g" ∧ toUnit = "kg" then some (1 / 1000)
  else if fromUnit = "kg" ∧ toUnit = "g" then some 1000
  else if fromUnit = "mg" ∧ toUnit = "g" then some (1 / 1000)
  else if fromUnit = "g" ∧ toUnit = "mg" then some 1000
  -- WEIGHT: imperial
  else if fromUnit = "oz_wt" ∧ toUnit = "lb" then some (1 / 16)
  else if fromUnit = "lb" ∧ toUnit = "oz_wt" then some 16
  -- WEIGHT: metric to imperial
  else if fromUnit = "g" ∧ toUnit = "oz_wt" then some (1 / 28.3495)
  else if fromUnit = "oz_wt" ∧ toUnit = "g" then some 28.3495
  else if fromUnit = "kg" ∧ toUnit = "lb" then some 2.20462
  else if fromUnit = "lb" ∧ toUnit = "kg" then some (1 / 2.20462)
  else if fromUnit = "oz_wt" ∧ toUnit = "kg" then some 0.0283495
  else if fromUnit = "kg" ∧ toUnit = "oz_wt" then some (1 / 0.0283495)
  -- LENGTH: metric
  else if fromUnit = "mm" ∧ toUnit = "cm" then some (1 / 10)
  else if fromUnit = "cm" ∧ toUnit = "mm" then some 10
  else if fromUnit = "cm" ∧ toUnit = "m" then some (1 / 100)
  else if fromUnit = "m" ∧ toUnit = "cm" then some 100
  else if fromUnit = "mm" ∧ toUnit = "m" then some (1 / 1000)
  else if fromUnit = "m" ∧ toUnit = "mm" then some 1000
  -- LENGTH: imperial
  else if fromUnit = "in" ∧ toUnit = "ft" then some (1 / 12)
  else if fromUnit = "ft" ∧ toUnit = "in" then some 12
  else if fromUnit = "ft" ∧ toUnit = "yd" then some (1 / 3)
  else if fromUnit = "yd" ∧ toUnit = "ft" then some 3
  else if fromUnit = "in" ∧ toUnit = "yd" then some (1 / 36)
  else if fromUnit = "yd" ∧ toUnit = "in" then some 36
  -- LENGTH: metric to imperial
  else if fromUnit = "cm" ∧ toUnit = "in" then some (1 / 2.54)
  else if fromUnit = "in" ∧ toUnit = "cm" then some 2.54
  else if fromUnit = "m" ∧ toUnit = "ft" then some 3.28084
  else if fromUnit = "ft" ∧ toUnit = "m" then some (1 / 3.28084)
  else if fromUnit = "mm" ∧ toUnit = "in" then some (1 / 25.4)
  else if fromUnit = "in" ∧ toUnit = "mm" then some 25.4
  else if fromUnit = "m" ∧ toUnit = "yd" then some 1.09361
  else if fromUnit = "yd" ∧ toUnit = "m" then some (1 / 1.09361)
  -- AREA
  else if fromUnit = "cm²" ∧ toUnit = "m²" then some (1 / 10000)
  else if fromUnit = "m²" ∧ toUnit = "cm²" then some 10000
  else if fromUnit = "in²" ∧ toUnit = "ft²" then some (1 / 144)
  else if fromUnit = "ft²" ∧ toUnit = "in²" then some 144
  -- AREA: metric to imperial
  else if fromUnit = "cm²" ∧ toUnit = "in²" then some (1 / 6.4516)
  else if fromUnit = "in²" ∧ toUnit = "cm²" then some 6.4516
  else if fromUnit = "m²" ∧ toUnit = "ft²" then some 10.7639
  else if fromUnit = "ft²" ∧ toUnit = "m²" then some (1 / 10.7639)
  -- COUNT/PACKAGING
  else if fromUnit = "pcs" ∧ toUnit = "dozen" then some (1 / 12)
  else if fromUnit = "dozen" ∧ toUnit = "pcs" then some 12
  else if fromUnit = "pcs" ∧ toUnit = "box" then some (1 / 24)
  else if fromUnit = "box" ∧ toUnit = "pcs" then some 24
  else if fromUnit = "pcs" ∧ toUnit = "pack" then some (1 / 6)
  else if fromUnit = "pack" ∧ toUnit = "pcs" then some 6
  else if fromUnit = "dozen" ∧ toUnit = "box" then some (1 / 2)
  else if fromUnit = "box" ∧ toUnit = "dozen" then some 2
  else none

/-- Applying the conversion chain to an amount: a matched branch multiplies by
its factor, an unmatched pair leaves the amount unchanged (the chain of
src/lib/db/consumption.ts lines 37-285 falls through silently). -/
def convertChain (amount : ℚ) (fromUnit toUnit : String) : ℚ :=
  match conversionFactor fromUnit toUnit with
  | some c => amount * c
  | none => amount

/-- `toLowerCase` as applied to the unit names at
src/lib/db/consumption.ts lines 34-35: lowercase every character. -/
def strToLower (s : String) : String := ⟨s.data.map Char.toLower⟩

/-- JavaScript truthiness of a string value: the empty string is falsy
(a missing value is collapsed to the empty string in this model). -/
def strTruthy (s : String) : Prop := s ≠ ""

instance (s : String) : Decidable (strTruthy s) := by
  unfold strTruthy
  infer_instance

/-- Outcome of the conversion step: the converted amount together with the
warnings emitted by `console.warn` in that region. -/
structure ConversionOutcome where
  convertedAmount : ℚ
  warnings : List String
deriving DecidableEq

/-- The conversion step of `recordConsumption`, src/lib/db/consumption.ts
lines 26-298: when both units are truthy and differ, the lowercased pair is
run through the branch chain (an unmatched pair keeps the amount, with no
warning); otherwise, when the units differ (so one of them is falsy), the
`Unsupported unit conversion` warning is emitted and the amount is kept. -/
def convertForConsumption (consumption_unit unit : String) (amount : ℚ) :
    ConversionOutcome :=
  if strTruthy consumption_unit ∧ strTruthy unit ∧ consumption_unit ≠ unit then
    { convertedAmount :=
        convertChain amount (strToLower consumption_unit) (strToLower unit)
      warnings := [] }
  else if consumption_unit ≠ unit then
    { convertedAmount := amount
      warnings := ["Unsupported unit conversion"] }
  else
    { convertedAmount := amount
      warnings := [] }

/-- Failure-injection flags for the fallible datastore writes that
`recordConsumption` performs: the balance update (src/lib/db/consumption.ts
line 328), the consumption_records insert (line 342), the compensating
balance update after a ledger failure (line 356), and the activity_logs
insert (line 367, via createActivityLog). `true` means the write succeeds. -/
structure Env where
  balanceUpdateOk : Bool
  ledgerInsertOk : Bool
  revertUpdateOk : Bool
  activityInsertOk : Bool
deriving DecidableEq

/-- An environment in which every datastore write succeeds. -/
def envAllOk : Env :=
  { balanceUpdateOk := true, ledgerInsertOk := true,
    revertUpdateOk := true, activityInsertOk := true }

/-- Replace the current_balance of every stored item with the given id
(the row filter `eq('id', id)` of the update, src/lib/db/inventory.ts
line 127). -/
def setItemBalance (items : List InventoryItem) (id : String) (b : ℚ) :
    List InventoryItem :=
  items.map fun it => if it.id = id then { it with current_balance := b } else it

/-- `updateInventoryItem` restricted to the `current_balance` patch used by
the transaction core, src/lib/db/inventory.ts lines 123-141: on success it
returns the updated record and the mutated store, on a datastore error it
returns `none` with the store unchanged. -/
def updateInventoryItem (db : Database) (ok : Bool) (id : String)
    (newBalance : ℚ) : Option InventoryItem × Database :=
  if ok then
    match db.items.find? (fun it => it.id = id) with
    | some it =>
        (some { it with current_balance := newBalance },
         { db with items := setItemBalance db.items id newBalance })
    | none => (none, db)
  else (none, db)

/-- The result shape of `recordConsumption`,
src/lib/db/consumption.ts line 13. -/
structure ConsumptionResult where
  success : Bool
  message : String
  updatedItem : Option InventoryItem
deriving DecidableEq

/-- The full outcome of a `recordConsumption` call: the returned result, the
datastore afterwards, and the warnings emitted by the conversion step. -/
structure RunOutcome where
  result : ConsumptionResult
  db : Database
  warnings : List String
deriving DecidableEq

/-- The consumption transaction coordinator `recordConsumption`,
src/lib/db/consumption.ts lines 8-391: fetch the item, convert the amount,
check the balance, decrement the balance, insert the ledger record
(reverting the balance on a ledger failure), insert the activity log
(its failure is ignored), and return. `now` stands for the insertion
timestamp `new Date().toISOString()`. -/
def recordConsumption (env : Env) (db : Database) (itemId userId : String)
    (amount : ℚ) (reason : Option String) (now : Nat) : RunOutcome :=
  match db.items.find? (fun it => it.id = itemId) with
  | none => ⟨⟨false, "Item not found", none⟩, db, []⟩
  | some item =>
    let conv := convertForConsumption item.consumption_unit item.unit amount
    if item.current_balance < conv.convertedAmount then
      ⟨⟨false, "Not enough balance", none⟩, db, conv.warnings⟩
    else
      let newBalance := item.current_balance - conv.convertedAmount
      match updateInventoryItem db env.balanceUpdateOk itemId newBalance with
      | (none, db1) =>
        ⟨⟨false, "Failed to update item balance", none⟩, db1, conv.warnings⟩
      | (some updatedItem, db1) =>
        if env.ledgerInsertOk then
          let db2 := { db1 with consumption_records :=
            db1.consumption_records ++
              [⟨itemId, userId, amount, reason, now⟩] }
          let db3 :=
            if env.activityInsertOk then
              { db2 with activity_logs := db2.activity_logs ++
                [⟨userId, .consumption, itemId,
                  ⟨amount,
                   if strTruthy item.consumption_unit then item.consumption_unit
                   else item.unit,
                   reason, item.current_balance, newBalance⟩, now⟩] }
            else db2
          ⟨⟨true, "Consumption recorded successfully", some updatedItem⟩,
           db3, conv.warnings⟩
        else
          ⟨⟨false, "Failed to create consumption record", none⟩,
           (updateInventoryItem db1 env.revertUpdateOk itemId
             item.current_balance).2,
           conv.warnings⟩

/-- The balance adjustment path `handleAdjustmentSubmit` of the consumption
modal, src/components/consumption-modal.tsx lines 130-172 (for a logged-in
admin): it calls `updateInventoryItem` with the parsed new balance as the
`current_balance` patch, verbatim, and reports success iff the update
returned a record. No ledger record and no activity log is involved. -/
def handleAdjustmentSubmit (db : Database) (ok : Bool) (itemId : String)
    (numAmount : ℚ) : Bool × Database :=
  match updateInventoryItem db ok itemId numAmount with
  | (some _, db1) => (true, db1)
  | (none, db1) => (false, db1)

/-- The volume units appearing in the conversion chain. -/
def volumeUnits : List String := ["ml", "l", "cl", "fl_oz", "gal", "pt", "qt"]

/-- The weight units appearing in the conversion chain. -/
def weightUnits : List String := ["g", "kg", "mg", "oz_wt", "lb"]

/-- The length units appearing in the conversion chain. -/
def lengthUnits : List String := ["mm", "cm", "m", "in", "ft", "yd"]

/-- The area units appearing in the conversion chain. -/
def areaUnits : List String := ["cm²", "m²", "in²", "ft²"]

/-- The count/packaging units appearing in the conversion chain. -/
def countUnits : List String := ["pcs", "dozen", "box", "pack"]

/-- The five dimension classes of the unit set (spec section 4.1), with the
unit names in the lowercase form the chain compares against. -/
def dimensionClasses : List (List String) :=
  [volumeUnits, weightUnits, lengthUnits, areaUnits, countUnits]

/-- Phases of the read-check-write core of one consumption request against a
shared balance, src/lib/db/consumption.ts lines 18-331: the awaited item
fetch together with the synchronous balance check (lines 18-315), then the
awaited balance write computed from the fetched snapshot (lines 318-331).
Other requests may be scheduled between the two awaits. -/
inductive TxPhase where
| toRead
| toWrite (readBalance : ℚ)
| done (succeeded : Bool)
deriving DecidableEq

/-- One step of one request: reading checks the shared balance against the
requested amount and either rejects or proceeds with the snapshot; writing
stores snapshot minus amount (the `newBalance` of line 318). -/
def txStep (amount : ℚ) (phase : TxPhase) (balance : ℚ) : TxPhase × ℚ :=
  match phase with
  | .toRead =>
      if balance < amount then (.done false, balance)
      else (.toWrite balance, balance)
  | .toWrite readBalance => (.done true, readBalance - amount)
  | .done s => (.done s, balance)

/-- Two consumption requests against the same item: the shared stored
balance and the phase of each request. -/
structure RaceState where
  balance : ℚ
  tx1 : TxPhase
  tx2 : TxPhase
deriving DecidableEq

/-- Schedule one step: `true` steps the first request, `false` the second. -/
def raceStep (amt1 amt2 : ℚ) (s : RaceState) (first : Bool) : RaceState :=
  if first then
    let (p, b) := txStep amt1 s.tx1 s.balance
    { s with tx1 := p, balance := b }
  else
    let (p, b) := txStep amt2 s.tx2 s.balance
    { s with tx2 := p, balance := b }

/-- Run both requests under an interleaving schedule. -/
def raceRun (amt1 amt2 : ℚ) (s : RaceState) : List Bool → RaceState
  | [] => s
  | c :: cs => raceRun amt1 amt2 (raceStep amt1 amt2 s c) cs

/-- A concrete item stocked in litres with consumption reported in
millilitres, the spec section 8 example: unit L, consumption_unit ml,
current_balance 5. -/
def itemL : InventoryItem :=
  { id := "it1", item_code := "SPOG-1", name := "Oil", current_balance := 5,
    original_amount := 10, unit := "L", consumption_unit := "ml",
    min_threshold := 2, critical_threshold := 1 }

/-- A datastore holding only `itemL`. -/
def dbL : Database :=
  { items := [itemL], consumption_records := [], activity_logs := [] }

/-- A concrete item with a cross-dimension unit pair: consumption in ml
(volume) against a balance stocked in kg (weight). -/
def itemMlKg : InventoryItem :=
  { id := "it3", item_code := "SPOG-3", name := "Grease", current_balance := 10,
    original_amount := 10, unit := "kg", consumption_unit := "ml",
    min_threshold := 4, critical_threshold := 2 }

/-- A datastore holding only `itemMlKg`. -/
def dbMlKg : Database :=
  { items := [itemMlKg], consumption_records := [], activity_logs := [] }

/-- A concrete item with the spec section 8 thresholds
(critical_threshold 250, min_threshold 500) at a given balance. -/
def itemTh (b : ℚ) : InventoryItem :=
  { id := "it2", item_code := "SPOG-2", name := "Paint", current_balance := b,
    original_amount := 1000, unit := "ml", consumption_unit := "ml",
    min_threshold := 500, critical_threshold := 250 }

/-- A concrete item with balance 100 for the concurrency scenario. -/
def itemRace : InventoryItem :=
  { id := "r1", item_code := "SPOG-4", name := "Sealant", current_balance := 100,
    original_amount := 100, unit := "ml", consumption_unit := "ml",
    min_threshold := 20, critical_threshold := 10 }

/-- A datastore holding only `itemRace`. -/
def dbRace : Database :=
  { items := [itemRace], consumption_records := [], activity_logs := [] }

theorem setItemBalance_balance_of_mem {items : List InventoryItem} {id : String}
    {b : ℚ} {it : InventoryItem} (h : it ∈ setItemBalance items id b)
    (hid : it.id = id) : it.current_balance = b := by
  unfold setItemBalance at h
  rcases List.mem_map.mp h with ⟨x, _, hfx⟩
  by_cases hxi : x.id = id
  · rw [if_pos hxi] at hfx
    rw [← hfx]
  · rw [if_neg hxi] at hfx
    rw [← hfx] at hid
    exact absurd hid hxi

theorem find?_setItemBalance (items : List InventoryItem) (id : String) (b : ℚ) :
    (setItemBalance items id b).find? (fun it => it.id = id) =
      (items.find? (fun it => it.id = id)).map
        fun it => { it with current_balance := b } := by
  induction items with
  | nil => rfl
  | cons x xs ih =>
    by_cases hx : x.id = id
    · rw [setItemBalance, List.map_cons, if_pos hx,
        List.find?_cons_of_pos, List.find?_cons_of_pos, Option.map_some']
      · exact decide_eq_true hx
      · exact decide_eq_true hx
    · rw [setItemBalance, List.map_cons, if_neg hx,
        List.find?_cons_of_neg, List.find?_cons_of_neg]
      · exact ih
      · simp [hx]
      · simp [hx]

theorem updateInventoryItem_some {db : Database} {ok : Bool} {id : String}
    {b : ℚ} {u : InventoryItem} {db1 : Database}
    (h : updateInventoryItem db ok id b = (some u, db1)) :
    u.current_balance = b ∧ db1.items = setItemBalance db.items id b ∧
      db1.consumption_records = db.consumption_records ∧
      db1.activity_logs = db.activity_logs := by
  unfold updateInventoryItem at h
  split at h
  · split at h
    · rcases h with ⟨⟩
      exact ⟨rfl, rfl, rfl, rfl⟩
    · cases h
  · cases h

theorem updateInventoryItem_none {db : Database} {ok : Bool} {id : String}
    {b : ℚ} {db1 : Database}
    (h : updateInventoryItem db ok id b = (none, db1)) : db1 = db := by
  unfold updateInventoryItem at h
  split at h
  · split at h
    · cases h
    · rcases h with ⟨⟩
      rfl
  · rcases h with ⟨⟩
    rfl

theorem updateInventoryItem_eq_of_find {db : Database} {ok : Bool} {id : String}
    {b : ℚ} {item : InventoryItem}
    (hfind : db.items.find? (fun it => it.id = id) = some item) (hok : ok = true) :
    updateInventoryItem db ok id b =
      (some { item with current_balance := b },
       { db with items := setItemBalance db.items id b }) := by
  subst hok
  unfold updateInventoryItem
  rw [if_pos rfl, hfind]

theorem recordConsumption_insufficient {env : Env} {db : Database}
    {itemId userId : String} {amount : ℚ} {reason : Option String} {now : Nat}
    {item : InventoryItem}
    (hfind : db.items.find? (fun it => it.id = itemId) = some item)
    (hlt : item.current_balance <
      (convertForConsumption item.consumption_unit item.unit amount).convertedAmount) :
    recordConsumption env db itemId userId amount reason now =
      ⟨⟨false, "Not enough balance", none⟩, db,
       (convertForConsumption item.consumption_unit item.unit amount).warnings⟩ := by
  unfold recordConsumption
  rw [hfind]
  simp [hlt]

theorem recordConsumption_success_run {env : Env} {db : Database}
    {itemId userId : String} {amount : ℚ} {reason : Option String} {now : Nat}
    {item : InventoryItem}
    (hfind : db.items.find? (fun it => it.id = itemId) = some item)
    (hge : ¬ item.current_balance <
      (convertForConsumption item.consumption_unit item.unit amount).convertedAmount)
    (hup : env.balanceUpdateOk = true)
    (hled : env.ledgerInsertOk = true) :
    recordConsumption env db itemId userId amount reason now =
      ⟨⟨true, "Consumption recorded successfully",
        some { item with current_balance := item.current_balance -
          (convertForConsumption item.consumption_unit item.unit amount).convertedAmount }⟩,
       { items := setItemBalance db.items itemId (item.current_balance -
           (convertForConsumption item.consumption_unit item.unit amount).convertedAmount),
         consumption_records := db.consumption_records ++
           [⟨itemId, userId, amount, reason, now⟩],
         activity_logs := db.activity_logs ++
           (if env.activityInsertOk then
             [⟨userId, .consumption, itemId,
               ⟨amount,
                if strTruthy item.consumption_unit then item.consumption_unit
                else item.unit,
                reason, item.current_balance, item.current_balance -
                  (convertForConsumption item.consumption_unit item.unit
                    amount).convertedAmount⟩, now⟩]
            else []) },
       (convertForConsumption item.consumption_unit item.unit amount).warnings⟩ := by
  unfold recordConsumption
  rw [hfind]
  simp only [hge, if_false, ite_false]
  rw [updateInventoryItem_eq_of_find hfind hup]
  simp only [hled, if_true, ite_true]
  cases hact : env.activityInsertOk <;> simp [hact]

theorem recordConsumption_success_inv {env : Env} {db : Database}
    {itemId userId : String} {amount : ℚ} {reason : Option String} {now : Nat}
    (hs : (recordConsumption env db itemId userId amount reason now).result.success
      = true) :
    ∃ item, db.items.find? (fun it => it.id = itemId) = some item ∧
      ¬ item.current_balance <
        (convertForConsumption item.consumption_unit item.unit amount).convertedAmount ∧
      env.balanceUpdateOk = true ∧ env.ledgerInsertOk = true := by
  unfold recordConsumption at hs
  cases hfind : db.items.find? (fun it => it.id = itemId) with
  | none =>
    rw [hfind] at hs
    simp at hs
  | some item =>
    rw [hfind] at hs
    by_cases hge : item.current_balance <
        (convertForConsumption item.consumption_unit item.unit amount).convertedAmount
    · simp only [hge, if_true, ite_true] at hs
      simp at hs
    · refine ⟨item, rfl, hge, ?_⟩
      simp only [hge, if_false, ite_false] at hs
      cases hup : env.balanceUpdateOk with
      | false =>
        rw [hup] at hs
        simp [updateInventoryItem] at hs
      | true =>
        rw [hup] at hs
        rw [updateInventoryItem_eq_of_find hfind rfl] at hs
        cases hled : env.ledgerInsertOk with
        | false =>
          rw [hled] at hs
          simp at hs
        | true => exact ⟨rfl, rfl⟩

theorem recordConsumption_ledger_fail_run {env : Env} {db : Database}
    {itemId userId : String} {amount : ℚ} {reason : Option String} {now : Nat}
    {item : InventoryItem}
    (hfind : db.items.find? (fun it => it.id = itemId) = some item)
    (hge : ¬ item.current_balance <
      (convertForConsumption item.consumption_unit item.unit amount).convertedAmount)
    (hup : env.balanceUpdateOk = true)
    (hled : env.ledgerInsertOk = false) :
    recordConsumption env db itemId userId amount reason now =
      ⟨⟨false, "Failed to create consumption record", none⟩,
       (updateInventoryItem
         { db with items := setItemBalance db.items itemId (item.current_balance -
             (convertForConsumption item.consumption_unit item.unit
               amount).convertedAmount) }
         env.revertUpdateOk itemId item.current_balance).2,
       (convertForConsumption item.consumption_unit item.unit amount).warnings⟩ := by
  unfold recordConsumption
  rw [hfind]
  simp only [hge, if_false, ite_false]
  rw [updateInventoryItem_eq_of_find hfind hup]
  rw [hled]
  simp

/-- C2 (code_bug evidence): the balance adjustment path writes no ActivityLog
entry at all — for every store, update outcome, item id and new balance,
`handleAdjustmentSubmit` leaves the activity_logs table (and the
consumption_records table) exactly as it was, so in particular no entry with
action-type adjustment is ever written. -/
theorem claim_C2_adjustment_writes_no_activity_log (db : Database) (ok : Bool)
    (itemId : String) (v : ℚ) :
    (handleAdjustmentSubmit db ok itemId v).2.activity_logs = db.activity_logs ∧
    (handleAdjustmentSubmit db ok itemId v).2.consumption_records =
      db.consumption_records := by
  cases h : updateInventoryItem db ok itemId v with
  | mk found db1 =>
    cases found with
    | none =>
      have hdb := updateInventoryItem_none h
      simp [handleAdjustmentSubmit, h, hdb]
    | some u =>
      have hdb := updateInventoryItem_some h
      simp [handleAdjustmentSubmit, h]
      exact ⟨hdb.2.2.2, hdb.2.2.1⟩

/-- C4: unit conversion is applied before the balance check. For the item
with unit L, consumption_unit ml and current_balance 5: a request of 4000 ml
converts to 4 L, passes the check and leaves balance 1 L; a request of
6000 ml converts to 6 L, exceeds the 5 L available, and is rejected with the
store unchanged. -/
theorem claim_C4_conversion_before_balance_check :
    (convertForConsumption "ml" "L" 4000).convertedAmount = 4 ∧
    (recordConsumption envAllOk dbL "it1" "u1" 4000 none 7).result.success = true ∧
    ((recordConsumption envAllOk dbL "it1" "u1" 4000 none 7).db.items.map
      fun it => it.current_balance) = [1] ∧
    (convertForConsumption "ml" "L" 6000).convertedAmount = 6 ∧
    (recordConsumption envAllOk dbL "it1" "u1" 6000 none 7).result.success = false ∧
    (recordConsumption envAllOk dbL "it1" "u1" 6000 none 7).db = dbL := by
  norm_num +decide [recordConsumption, convertForConsumption, convertChain,
    conversionFactor, strToLower, strTruthy, updateInventoryItem, setItemBalance,
    envAllOk, itemL, dbL]

/-- C5: the derived status is critical when current_balance is at most
critical_threshold, low when it is above critical_threshold but at most
min_threshold, and normal otherwise, ties going to the more severe category;
with critical_threshold 250 and min_threshold 500, balance 250 is critical,
251 is low, 500 is low and 501 is normal. -/
theorem claim_C5_status_boundaries :
    (∀ item : InventoryItem, item.current_balance ≤ item.critical_threshold →
      calculateItemStatus item = .critical) ∧
    (∀ item : InventoryItem, item.critical_threshold < item.current_balance →
      item.current_balance ≤ item.min_threshold →
      calculateItemStatus item = .low) ∧
    (∀ item : InventoryItem, item.critical_threshold < item.current_balance →
      item.min_threshold < item.current_balance →
      calculateItemStatus item = .normal) ∧
    calculateItemStatus (itemTh 250) = .critical ∧
    calculateItemStatus (itemTh 251) = .low ∧
    calculateItemStatus (itemTh 500) = .low ∧
    calculateItemStatus (itemTh 501) = .normal := by
  refine ⟨?_, ?_, ?_, ?_, ?_, ?_, ?_⟩
  · intro item h
    simp [calculateItemStatus, h]
  · intro item h1 h2
    simp [calculateItemStatus, not_le.mpr h1, h2]
  · intro item h1 h2
    simp [calculateItemStatus, not_le.mpr h1, not_le.mpr h2]
  all_goals norm_num [calculateItemStatus, itemTh]

/-- C5 witness: concrete balances on each side of the two thresholds are
classified through each of the three general clauses. -/
theorem claim_C5_status_boundaries_witness :
    calculateItemStatus (itemTh 100) = .critical ∧
    calculateItemStatus (itemTh 300) = .low ∧
    calculateItemStatus (itemTh 600) = .normal :=
  ⟨claim_C5_status_boundaries.1 (itemTh 100) (by norm_num [itemTh]),
   claim_C5_status_boundaries.2.1 (itemTh 300) (by norm_num [itemTh])
     (by norm_num [itemTh]),
   claim_C5_status_boundaries.2.2.1 (itemTh 600) (by norm_num [itemTh])
     (by norm_num [itemTh])⟩

/-- C6 counterexample: for the cross-dimension pair ml (volume) against kg
(weight) — both units present, no conversion rule — `recordConsumption`
falls back to treating the entered amount as the stocking unit and proceeds,
but emits NO warning: the claim that the unsupported conversion is surfaced
rather than silently swallowed fails on this input. -/
theorem claim_C6_counterexample :
    conversionFactor "ml" "kg" = none ∧
    (recordConsumption envAllOk dbMlKg "it3" "u1" 2 none 7).warnings = [] ∧
    (recordConsumption envAllOk dbMlKg "it3" "u1" 2 none 7).result.success = true ∧
    ((recordConsumption envAllOk dbMlKg "it3" "u1" 2 none 7).db.items.map
      fun it => it.current_balance) = [8] := by
  norm_num +decide [recordConsumption, convertForConsumption, convertChain,
    conversionFactor, strToLower, strTruthy, updateInventoryItem, setItemBalance,
    envAllOk, itemMlKg, dbMlKg]

/-- C9 counterexample: an interleaving of the unsynchronized read-check-write
sequences (request 1 reads and checks, request 2 reads and checks, then both
write) in which BOTH requests for 60 against balance 100 succeed, each
writing 100 - 60: the final balance is 40 even though 120 was consumed. -/
theorem claim_C9_counterexample :
    raceRun 60 60 ⟨100, .toRead, .toRead⟩ [true, false, true, false] =
      ⟨40, .done true, .done true⟩ := by
  norm_num [raceRun, raceStep, txStep]

/-- C9 amended: only under serialized execution does the claimed outcome
hold: scheduling the full read-check-write of request 1 before request 2
makes request 1 succeed and request 2 observe balance 40 and fail; likewise
two sequential `recordConsumption` calls of 60 against balance 100 yield one
success and one insufficiency rejection with final balance 40. The
implementation has no synchronization, so an interleaved schedule can make
both succeed. -/
theorem claim_C9_serialized_behaviour :
    raceRun 60 60 ⟨100, .toRead, .toRead⟩ [true, true, false, false] =
      ⟨40, .done true, .done false⟩ ∧
    (recordConsumption envAllOk dbRace "r1" "u1" 60 none 1).result.success = true ∧
    (recordConsumption envAllOk
        (recordConsumption envAllOk dbRace "r1" "u1" 60 none 1).db
        "r1" "u2" 60 none 2).result.success = false ∧
    ((recordConsumption envAllOk
        (recordConsumption envAllOk dbRace "r1" "u1" 60 none 1).db
        "r1" "u2" 60 none 2).db.items.map fun it => it.current_balance) = [40] := by
  constructor
  · norm_num [raceRun, raceStep, txStep]
  · norm_num +decide [recordConsumption, convertForConsumption, convertChain,
      conversionFactor, strToLower, strTruthy, updateInventoryItem,
      setItemBalance, envAllOk, itemRace, dbRace]

/-- C1: a consumption request whose converted amount exceeds the current
balance returns a failure result with the whole store unchanged; and every
successful consumption leaves a non-negative balance, both in the returned
updated item and in every stored row with the requested item id. -/
theorem claim_C1_no_negative_balance :
    (∀ env db itemId userId amount reason now item,
      db.items.find? (fun it => it.id = itemId) = some item →
      item.current_balance <
        (convertForConsumption item.consumption_unit item.unit amount).convertedAmount →
      (recordConsumption env db itemId userId amount reason now).result.success = false ∧
      (recordConsumption env db itemId userId amount reason now).db = db) ∧
    (∀ env db itemId userId amount reason now,
      (recordConsumption env db itemId userId amount reason now).result.success = true →
      (∀ u, (recordConsumption env db itemId userId amount reason now).result.updatedItem
          = some u → 0 ≤ u.current_balance) ∧
      (∀ it ∈ (recordConsumption env db itemId userId amount reason now).db.items,
        it.id = itemId → 0 ≤ it.current_balance)) := by
  constructor
  · intro env db itemId userId amount reason now item hfind hlt
    rw [recordConsumption_insufficient hfind hlt]
    exact ⟨rfl, rfl⟩
  · intro env db itemId userId amount reason now hs
    obtain ⟨item, hfind, hge, hup, hled⟩ := recordConsumption_success_inv hs
    have hnn : 0 ≤ item.current_balance -
        (convertForConsumption item.consumption_unit item.unit amount).convertedAmount :=
      sub_nonneg.mpr (not_lt.mp hge)
    rw [recordConsumption_success_run hfind hge hup hled]
    constructor
    · intro u hu
      simp only [Option.some.injEq] at hu
      rw [← hu]
      exact hnn
    · intro it hmem hid
      rw [setItemBalance_balance_of_mem hmem hid]
      exact hnn

/-- C1 witness: for the 5 L item, a 6000 ml request (6 L converted) is
rejected with the store unchanged, and after the successful 4000 ml request
the stored row keeps a non-negative balance. -/
theorem claim_C1_no_negative_balance_witness :
    (recordConsumption envAllOk dbL "it1" "u1" 6000 none 7).result.success = false ∧
    (recordConsumption envAllOk dbL "it1" "u1" 6000 none 7).db = dbL ∧
    0 ≤ ({ itemL with current_balance := 1 } : InventoryItem).current_balance := by
  have hlt : itemL.current_balance <
      (convertForConsumption itemL.consumption_unit itemL.unit 6000).convertedAmount := by
    norm_num +decide [itemL, convertForConsumption, convertChain, conversionFactor,
      strToLower, strTruthy]
  have hs : (recordConsumption envAllOk dbL "it1" "u1" 4000 none 7).result.success
      = true := by
    norm_num +decide [recordConsumption, convertForConsumption, convertChain,
      conversionFactor, strToLower, strTruthy, updateInventoryItem, setItemBalance,
      envAllOk, itemL, dbL]
  have hmem : ({ itemL with current_balance := 1 } : InventoryItem) ∈
      (recordConsumption envAllOk dbL "it1" "u1" 4000 none 7).db.items := by
    norm_num +decide [recordConsumption, convertForConsumption, convertChain,
      conversionFactor, strToLower, strTruthy, updateInventoryItem, setItemBalance,
      envAllOk, itemL, dbL]
  exact ⟨(claim_C1_no_negative_balance.1 envAllOk dbL "it1" "u1" 6000 none 7
            itemL rfl hlt).1,
         (claim_C1_no_negative_balance.1 envAllOk dbL "it1" "u1" 6000 none 7
            itemL rfl hlt).2,
         (claim_C1_no_negative_balance.2 envAllOk dbL "it1" "u1" 4000 none 7 hs).2
            { itemL with current_balance := 1 } hmem rfl⟩

/-- C3 counterexample: with the ledger insert failing, the run in which the
compensating balance write ALSO fails returns exactly the same result value
as the run in which the compensation succeeds — the uncompensated outcome
(balance left decremented at 1 instead of restored to 5) is reported as the
ordinary failure, not surfaced distinctly. -/
theorem claim_C3_counterexample :
    (recordConsumption ⟨true, false, false, true⟩ dbL "it1" "u1" 4000 none 7).result =
      (recordConsumption ⟨true, false, true, true⟩ dbL "it1" "u1" 4000 none 7).result ∧
    (recordConsumption ⟨true, false, false, true⟩ dbL "it1" "u1" 4000 none 7).result =
      ⟨false, "Failed to create consumption record", none⟩ ∧
    ((recordConsumption ⟨true, false, false, true⟩ dbL "it1" "u1" 4000
        none 7).db.items.map fun it => it.current_balance) = [1] ∧
    ((recordConsumption ⟨true, false, true, true⟩ dbL "it1" "u1" 4000
        none 7).db.items.map fun it => it.current_balance) = [5] := by
  norm_num +decide [recordConsumption, convertForConsumption, convertChain,
    conversionFactor, strToLower, strTruthy, updateInventoryItem, setItemBalance,
    itemL, dbL]

/-- C3 amended: when the ledger write fails after a successful balance
update, `recordConsumption` attempts the compensating update and returns a
failure result; when the compensation succeeds the pre-transaction balance is
restored, and when the compensation fails the balance is left decremented —
but the returned result is the same ordinary failure in both cases, so a
failed compensation is not surfaced distinctly. -/
theorem claim_C3_compensation_best_effort (env : Env) (db : Database)
    (itemId userId : String) (amount : ℚ) (reason : Option String) (now : Nat)
    (item : InventoryItem)
    (hfind : db.items.find? (fun it => it.id = itemId) = some item)
    (hge : ¬ item.current_balance <
      (convertForConsumption item.consumption_unit item.unit amount).convertedAmount)
    (hup : env.balanceUpdateOk = true)
    (hled : env.ledgerInsertOk = false) :
    (recordConsumption env db itemId userId amount reason now).result =
      ⟨false, "Failed to create consumption record", none⟩ ∧
    (env.revertUpdateOk = true →
      ∀ it ∈ (recordConsumption env db itemId userId amount reason now).db.items,
        it.id = itemId → it.current_balance = item.current_balance) ∧
    (env.revertUpdateOk = false →
      (recordConsumption env db itemId userId amount reason now).db.items =
        setItemBalance db.items itemId (item.current_balance -
          (convertForConsumption item.consumption_unit item.unit
            amount).convertedAmount)) := by
  rw [recordConsumption_ledger_fail_run hfind hge hup hled]
  refine ⟨rfl, ?_, ?_⟩
  · intro hrev it hmem hid
    rw [hrev] at hmem
    have hfind2 : (setItemBalance db.items itemId (item.current_balance -
        (convertForConsumption item.consumption_unit item.unit
          amount).convertedAmount)).find? (fun it => it.id = itemId) =
        some { item with current_balance := item.current_balance -
          (convertForConsumption item.consumption_unit item.unit
            amount).convertedAmount } := by
      rw [find?_setItemBalance, hfind]
      rfl
    rw [@updateInventoryItem_eq_of_find _ true itemId item.current_balance _
      hfind2 rfl] at hmem
    exact setItemBalance_balance_of_mem hmem hid
  · intro hrev
    rw [hrev]
    rfl

/-- C3 witness: ledger failure with a successful compensation on the 5 L
item: the ordinary failure result is returned and the stored balance is back
at its pre-transaction value. -/
theorem claim_C3_compensation_best_effort_witness :
    (recordConsumption ⟨true, false, true, true⟩ dbL "it1" "u1" 4000 none 7).result =
      ⟨false, "Failed to create consumption record", none⟩ ∧
    ({ itemL with current_balance := 5 } : InventoryItem).current_balance =
      itemL.current_balance := by
  have h := claim_C3_compensation_best_effort ⟨true, false, true, true⟩ dbL
    "it1" "u1" 4000 none 7 itemL rfl
    (by norm_num +decide [itemL, convertForConsumption, convertChain,
      conversionFactor, strToLower, strTruthy]) rfl rfl
  have hmem : ({ itemL with current_balance := 5 } : InventoryItem) ∈
      (recordConsumption ⟨true, false, true, true⟩ dbL "it1" "u1" 4000
        none 7).db.items := by
    norm_num +decide [recordConsumption, convertForConsumption, convertChain,
      conversionFactor, strToLower, strTruthy, updateInventoryItem, setItemBalance,
      itemL, dbL]
  exact ⟨h.1, h.2.1 rfl { itemL with current_balance := 5 } hmem rfl⟩

/-- C6 amended: when the units differ and the chain has no rule for the
lowercased pair, the entered amount is treated as already being in the
stocking unit and the transaction proceeds (it can still succeed); but the
Unsupported-unit-conversion warning is emitted only when one of the two unit
strings is empty — when both units are present (every cross-dimension pair
such as ml to kg) the fallback is silent. -/
theorem claim_C6_unsupported_fallback (cu u : String) (amount : ℚ)
    (hdiff : cu ≠ u)
    (hnorule : conversionFactor (strToLower cu) (strToLower u) = none) :
    (convertForConsumption cu u amount).convertedAmount = amount ∧
    ((convertForConsumption cu u amount).warnings = [] ↔
      strTruthy cu ∧ strTruthy u) ∧
    (∀ env db itemId userId reason now item,
      db.items.find? (fun it => it.id = itemId) = some item →
      item.consumption_unit = cu → item.unit = u →
      ¬ item.current_balance < amount →
      env.balanceUpdateOk = true → env.ledgerInsertOk = true →
      (recordConsumption env db itemId userId amount reason now).result.success
        = true) := by
  have hconv : (convertForConsumption cu u amount).convertedAmount = amount := by
    unfold convertForConsumption
    by_cases htr : strTruthy cu ∧ strTruthy u
    · rw [if_pos ⟨htr.1, htr.2, hdiff⟩]
      show convertChain amount (strToLower cu) (strToLower u) = amount
      unfold convertChain
      rw [hnorule]
    · rw [if_neg (fun hcon => htr ⟨hcon.1, hcon.2.1⟩), if_pos hdiff]
  refine ⟨hconv, ?_, ?_⟩
  · unfold convertForConsumption
    by_cases htr : strTruthy cu ∧ strTruthy u
    · rw [if_pos ⟨htr.1, htr.2, hdiff⟩]
      simpa using htr
    · rw [if_neg (fun hcon => htr ⟨hcon.1, hcon.2.1⟩), if_pos hdiff]
      simpa using htr
  · intro env db itemId userId reason now item hfind hcu hu hbal hupOk hledOk
    have hge : ¬ item.current_balance <
        (convertForConsumption item.consumption_unit item.unit
          amount).convertedAmount := by
      rw [hcu, hu, hconv]
      exact hbal
    rw [recordConsumption_success_run hfind hge hupOk hledOk]

/-- C6 witness: the ml-to-kg item: the amount is kept, the warning list
equivalence holds (both units present, no warning), and the transaction
succeeds. -/
theorem claim_C6_unsupported_fallback_witness :
    (convertForConsumption "ml" "kg" 2).convertedAmount = 2 ∧
    ((convertForConsumption "ml" "kg" 2).warnings = [] ↔
      strTruthy "ml" ∧ strTruthy "kg") ∧
    (recordConsumption envAllOk dbMlKg "it3" "u1" 2 none 7).result.success = true := by
  have h := claim_C6_unsupported_fallback "ml" "kg" 2 (by decide) (by decide)
  exact ⟨h.1, h.2.1,
    h.2.2 envAllOk dbMlKg "it3" "u1" none 7 itemMlKg rfl rfl rfl
      (by norm_num [itemMlKg]) rfl rfl⟩

/-- C7: for every unit pair inside one dimension class, converting an amount
from the first to the second unit and back returns exactly the original
value (in exact rational arithmetic, hence within any floating-point
tolerance): the pairwise factors of the chain are internally consistent. -/
theorem claim_C7_roundtrip_conversion (cls : List String) (a b : String)
    (hcls : cls ∈ dimensionClasses) (ha : a ∈ cls) (hb : b ∈ cls) (x : ℚ) :
    convertChain (convertChain x a b) b a = x := by
  fin_cases hcls <;> fin_cases ha <;> fin_cases hb <;>
    simp +decide [convertChain, conversionFactor] <;> ring

/-- C7 witness: ml and l lie in the volume class and 3 ml-to-l-to-ml
round-trips to 3. -/
theorem claim_C7_roundtrip_conversion_witness :
    volumeUnits ∈ dimensionClasses ∧ "ml" ∈ volumeUnits ∧ "l" ∈ volumeUnits ∧
    convertChain (convertChain 3 "ml" "l") "l" "ml" = 3 :=
  ⟨by decide, by decide, by decide,
   claim_C7_roundtrip_conversion volumeUnits "ml" "l" (by decide) (by decide)
     (by decide) 3⟩

/-- C8: every successful consumption appends to the ledger exactly one
ConsumptionRecord holding the original entered amount (not the converted
one), the item reference, the user reference, the optional reason and the
timestamp. -/
theorem claim_C8_ledger_stores_original_amount (env : Env) (db : Database)
    (itemId userId : String) (amount : ℚ) (reason : Option String) (now : Nat)
    (hs : (recordConsumption env db itemId userId amount reason now).result.success
      = true) :
    (recordConsumption env db itemId userId amount reason now).db.consumption_records
      = db.consumption_records ++
        [{ item_id := itemId, user_id := userId, amount := amount,
           reason := reason, timestamp := now }] := by
  obtain ⟨item, hfind, hge, hup, hled⟩ := recordConsumption_success_inv hs
  rw [recordConsumption_success_run hfind hge hup hled]

/-- C8 witness: the successful 4000 ml consumption against the 5 L item
appends the record with the original 4000, not the converted 4. -/
theorem claim_C8_ledger_stores_original_amount_witness :
    (recordConsumption envAllOk dbL "it1" "u1" 4000 (some "maintenance")
        7).db.consumption_records =
      dbL.consumption_records ++
        [{ item_id := "it1", user_id := "u1", amount := 4000,
           reason := some "maintenance", timestamp := 7 }] :=
  claim_C8_ledger_stores_original_amount envAllOk dbL "it1" "u1" 4000
    (some "maintenance") 7
    (by norm_num +decide [recordConsumption, convertForConsumption, convertChain,
      conversionFactor, strToLower, strTruthy, updateInventoryItem, setItemBalance,
      envAllOk, itemL, dbL])

/-- C10: the balance adjustment path stores the caller-supplied value
verbatim as current_balance with no validation — it succeeds for every
rational input, every stored row with the item id carries exactly the
supplied value afterwards, and a negative input makes the persisted balance
negative. -/
theorem claim_C10_adjustment_unvalidated (db : Database) (itemId : String)
    (v : ℚ) (item : InventoryItem)
    (hfind : db.items.find? (fun it => it.id = itemId) = some item) :
    (handleAdjustmentSubmit db true itemId v).1 = true ∧
    (handleAdjustmentSubmit db true itemId v).2.items =
      setItemBalance db.items itemId v ∧
    (∀ it ∈ (handleAdjustmentSubmit db true itemId v).2.items,
      it.id = itemId → it.current_balance = v) ∧
    (v < 0 → ∀ it ∈ (handleAdjustmentSubmit db true itemId v).2.items,
      it.id = itemId → it.current_balance < 0) := by
  have h := @updateInventoryItem_eq_of_find db true itemId v item hfind rfl
  refine ⟨?_, ?_, ?_, ?_⟩
  · simp [handleAdjustmentSubmit, h]
  · simp [handleAdjustmentSubmit, h]
  · intro it hmem hid
    simp only [handleAdjustmentSubmit, h] at hmem
    exact setItemBalance_balance_of_mem hmem hid
  · intro hv it hmem hid
    simp only [handleAdjustmentSubmit, h] at hmem
    rw [setItemBalance_balance_of_mem hmem hid]
    exact hv

/-- C10 witness: adjusting the 5 L item to -3 succeeds and persists the
negative balance verbatim. -/
theorem claim_C10_adjustment_unvalidated_witness :
    (handleAdjustmentSubmit dbL true "it1" (-3)).1 = true ∧
    (handleAdjustmentSubmit dbL true "it1" (-3)).2.items =
      setItemBalance dbL.items "it1" (-3) ∧
    ({ itemL with current_balance := (-3 : ℚ) } : InventoryItem).current_balance
      < 0 := by
  have h := claim_C10_adjustment_unvalidated dbL "it1" (-3) itemL rfl
  have hmem : ({ itemL with current_balance := (-3 : ℚ) } : InventoryItem) ∈
      (handleAdjustmentSubmit dbL true "it1" (-3)).2.items := by
    norm_num +decide [handleAdjustmentSubmit, updateInventoryItem, setItemBalance,
      itemL, dbL]
  exact ⟨h.1, h.2.1, h.2.2.2 (by norm_num) _ hmem rfl⟩

end SPOG
